import Mathlib

/-!
# Verification of the weather_service aggregation pipeline

Shallow embedding of `src/weather/services/weather_service.py` and
`src/weather/views.py`.

JSON values exchanged with the two upstream HTTP APIs are modelled by the
inductive type `JSON` below.  Python truthiness (`if x:`) is modelled by
`truthy`, and Python's `dict.get(key)` (returning `None` when the key is
absent) by `pythonGet`; on a non-dict receiver `pythonGet` returns `null`,
which is only relied upon under hypotheses guaranteeing the receiver is an
object, matching the inputs on which the Python code does not raise.

The HTTP transport is outside the embedded fragment: each service function
takes the parsed response body (or an oracle producing it) as an argument,
and a raised `requests` exception is modelled by `Except.error`.  Numbers
are modelled by `Int`; no claim depends on fractional values, only on
truthiness of `0` and pass-through of numeric fields.
-/

/-- A JSON value, as produced by `response.json()` in the Python code. -/
inductive JSON where
  | null : JSON
  | bool (b : Bool) : JSON
  | num (n : Int) : JSON
  | str (s : String) : JSON
  | arr (elems : List JSON) : JSON
  | obj (fields : List (String × JSON)) : JSON

/-- Python truthiness of a JSON value: `None`, `False`, `0`, `""`, `[]`
and `{}` are falsy, everything else is truthy. -/
def truthy : JSON → Bool
  | .null => false
  | .bool b => b
  | .num n => n != 0
  | .str s => s != ""
  | .arr elems => !elems.isEmpty
  | .obj fields => !fields.isEmpty

/-- Python's `d.get(key)`: the value stored under `key`, or `None` when the
key is absent.  Returns `null` on a non-object receiver (the Python code
only applies `.get` to dicts). -/
def pythonGet (j : JSON) (key : String) : JSON :=
  match j with
  | .obj fields => ((fields.lookup key).getD .null)
  | _ => .null

/-! ## Coordinate Resolver — `WeatherService.get_city_coordinates`

The HTTP request and `raise_for_status` are outside the embedded fragment;
`data` below is the parsed response of the place-search API, an array of
place objects, hence a `List JSON`. -/

/-- The filter condition of the loop in `get_city_coordinates`:
`res.get('id') and res.get('lat') and res.get('long')` — Python `and`
on the three looked-up values, i.e. truthiness of each. -/
def keepCandidate (res : JSON) : Bool :=
  truthy (pythonGet res "id") && truthy (pythonGet res "lat") &&
    truthy (pythonGet res "long")

/-- The dict `dict_aux` built for a kept result: the four fields `id`,
`lat`, `long`, `city_name`, each read back with `res.get`. -/
def projectCandidate (res : JSON) : JSON :=
  .obj [("id", pythonGet res "id"), ("lat", pythonGet res "lat"),
        ("long", pythonGet res "long"), ("city_name", pythonGet res "city_name")]

/-- `WeatherService.get_city_coordinates`, applied to the parsed upstream
response `data`.  When `data` is truthy (a non-empty array) the loop keeps
the results passing `keepCandidate` and projects each with
`projectCandidate`, returning the list `data_aux`; otherwise the function
returns the empty dict `{}`. -/
def get_city_coordinates (data : List JSON) : JSON :=
  if data.isEmpty then .obj []
  else .arr ((data.filter keepCandidate).map projectCandidate)

/-- A JSON object has the field `key` present (with any value, including
`null`). -/
def hasKey (j : JSON) (key : String) : Bool :=
  match j with
  | .obj fields => fields.any (fun kv => kv.1 == key)
  | _ => false

theorem lookup_eq_value_of_keep (res : JSON) :
    pythonGet (projectCandidate res) "id" = pythonGet res "id" ∧
    pythonGet (projectCandidate res) "lat" = pythonGet res "lat" ∧
    pythonGet (projectCandidate res) "long" = pythonGet res "long" ∧
    pythonGet (projectCandidate res) "city_name" = pythonGet res "city_name" := by
  refine ⟨rfl, ?_, ?_, ?_⟩ <;> simp [projectCandidate, pythonGet, List.lookup]

theorem keepCandidate_projectCandidate (res : JSON) :
    keepCandidate (projectCandidate res) = keepCandidate res := by
  simp [keepCandidate, projectCandidate, pythonGet, List.lookup]

/-! ## Claims C1, C2, C10 — the Resolver -/

/-- C1 (counterexample): the claim reads the filter as a *presence* test.
On the upstream result `{"id": 0, "lat": "20.67", "long": "-103.35"}` all
three fields are present, yet `get_city_coordinates` excludes it (the
output is the empty list), because `res.get('id')` is `0`, which is falsy. -/
theorem C1_counterexample :
    hasKey (JSON.obj [("id", JSON.num 0), ("lat", JSON.str "20.67"),
      ("long", JSON.str "-103.35")]) "id" = true ∧
    hasKey (JSON.obj [("id", JSON.num 0), ("lat", JSON.str "20.67"),
      ("long", JSON.str "-103.35")]) "lat" = true ∧
    hasKey (JSON.obj [("id", JSON.num 0), ("lat", JSON.str "20.67"),
      ("long", JSON.str "-103.35")]) "long" = true ∧
    get_city_coordinates [JSON.obj [("id", JSON.num 0), ("lat", JSON.str "20.67"),
      ("long", JSON.str "-103.35")]] = JSON.arr [] :=
  ⟨rfl, rfl, rfl, rfl⟩

/-- C1 (amended): for every non-empty upstream place-search response, the
Resolver outputs exactly those results whose `id`, `lat` and `long` are
present with *truthy* values, each projected to the four fields
`{id, lat, long, city_name}`; `city_name` is passed through unfiltered. -/
theorem C1_theorem (data : List JSON) (hne : data ≠ []) :
    ∃ out, get_city_coordinates data = JSON.arr out ∧
      (∀ res ∈ data, keepCandidate res = true → projectCandidate res ∈ out) ∧
      (∀ c ∈ out, ∃ res ∈ data, keepCandidate res = true ∧ c = projectCandidate res) := by
  refine ⟨(data.filter keepCandidate).map projectCandidate, ?_, ?_, ?_⟩
  · simp [get_city_coordinates, hne]
  · intro res hres hkeep
    exact List.mem_map_of_mem _ (List.mem_filter.mpr ⟨hres, hkeep⟩)
  · intro c hc
    rcases List.mem_map.mp hc with ⟨res, hres, hproj⟩
    exact ⟨res, (List.mem_filter.mp hres).1, (List.mem_filter.mp hres).2, hproj.symm⟩

/-- C1 (witness): instantiation of `C1_theorem` on a concrete one-result
response whose `id`, `lat`, `long` are truthy. -/
theorem C1_witness :
    ∃ out, get_city_coordinates [JSON.obj [("id", JSON.str "guadalajara"),
        ("lat", JSON.str "20.67"), ("long", JSON.str "-103.35"),
        ("city_name", JSON.str "Guadalajara")]] = JSON.arr out ∧
      (∀ res ∈ [JSON.obj [("id", JSON.str "guadalajara"), ("lat", JSON.str "20.67"),
        ("long", JSON.str "-103.35"), ("city_name", JSON.str "Guadalajara")]],
        keepCandidate res = true → projectCandidate res ∈ out) ∧
      (∀ c ∈ out, ∃ res ∈ [JSON.obj [("id", JSON.str "guadalajara"),
        ("lat", JSON.str "20.67"), ("long", JSON.str "-103.35"),
        ("city_name", JSON.str "Guadalajara")]],
        keepCandidate res = true ∧ c = projectCandidate res) :=
  C1_theorem _ (by simp)

/-- C2 (counterexample): on an empty upstream response the Resolver does not
return an empty list — it returns the empty dict `{}`. -/
theorem C2_counterexample :
    get_city_coordinates [] = JSON.obj [] ∧ get_city_coordinates [] ≠ JSON.arr [] :=
  ⟨rfl, fun h => JSON.noConfusion h⟩

/-- C2 (amended): when the upstream place-search API returns no matches (an
empty result array), `get_city_coordinates` returns the empty dict `{}` — a
falsy empty value, not a list. -/
theorem C2_theorem :
    get_city_coordinates [] = JSON.obj [] ∧ truthy (get_city_coordinates []) = false :=
  ⟨rfl, rfl⟩

/-- C10 (counterexample): the claim says a result with a falsy `city_name`
is kept with `city_name` set to null.  On the result with
`city_name = ""` (present but falsy) the code keeps the result with
`city_name` passed through as `""`, which is not null. -/
theorem C10_counterexample :
    get_city_coordinates [JSON.obj [("id", JSON.str "c1"), ("lat", JSON.str "20.6"),
      ("long", JSON.str "-103.3"), ("city_name", JSON.str "")]] =
      JSON.arr [JSON.obj [("id", JSON.str "c1"), ("lat", JSON.str "20.6"),
        ("long", JSON.str "-103.3"), ("city_name", JSON.str "")]] ∧
    JSON.str "" ≠ JSON.null :=
  ⟨rfl, fun h => JSON.noConfusion h⟩

/-- C10 (amended): the Resolver's filter tests truthiness, not presence: a
result whose `id`, `lat` or `long` is falsy (absent, null, `0`, `""`, …) is
excluded, while a result passing the truthiness test is kept with
`city_name` passed through unchanged via `res.get('city_name')` (so `null`
exactly when `city_name` is absent or null, but e.g. `""` stays `""`). -/
theorem C10_theorem (data : List JSON) (res : JSON) (hmem : res ∈ data) :
    ∃ out, get_city_coordinates data = JSON.arr out ∧
      (keepCandidate res = false → projectCandidate res ∉ out) ∧
      (keepCandidate res = true → projectCandidate res ∈ out ∧
        pythonGet (projectCandidate res) "city_name" = pythonGet res "city_name") := by
  refine ⟨(data.filter keepCandidate).map projectCandidate, ?_, ?_, ?_⟩
  · simp [get_city_coordinates, List.ne_nil_of_mem hmem]
  · intro hfalse hin
    rcases List.mem_map.mp hin with ⟨r, hr, hproj⟩
    have hkr : keepCandidate r = true := (List.mem_filter.mp hr).2
    have : keepCandidate (projectCandidate r) = keepCandidate (projectCandidate res) := by
      rw [hproj]
    rw [keepCandidate_projectCandidate, keepCandidate_projectCandidate, hkr, hfalse] at this
    exact Bool.noConfusion this
  · intro hkeep
    exact ⟨List.mem_map_of_mem _ (List.mem_filter.mpr ⟨hmem, hkeep⟩),
      (lookup_eq_value_of_keep res).2.2.2⟩

/-- C10 (witness): instantiation of `C10_theorem` on a concrete kept
result. -/
theorem C10_witness :
    ∃ out, get_city_coordinates [JSON.obj [("id", JSON.str "mty"),
        ("lat", JSON.str "25.68"), ("long", JSON.str "-100.31")]] = JSON.arr out ∧
      (keepCandidate (JSON.obj [("id", JSON.str "mty"), ("lat", JSON.str "25.68"),
        ("long", JSON.str "-100.31")]) = false →
        projectCandidate (JSON.obj [("id", JSON.str "mty"), ("lat", JSON.str "25.68"),
          ("long", JSON.str "-100.31")]) ∉ out) ∧
      (keepCandidate (JSON.obj [("id", JSON.str "mty"), ("lat", JSON.str "25.68"),
        ("long", JSON.str "-100.31")]) = true →
        projectCandidate (JSON.obj [("id", JSON.str "mty"), ("lat", JSON.str "25.68"),
          ("long", JSON.str "-100.31")]) ∈ out ∧
        pythonGet (projectCandidate (JSON.obj [("id", JSON.str "mty"),
          ("lat", JSON.str "25.68"), ("long", JSON.str "-100.31")])) "city_name" =
          pythonGet (JSON.obj [("id", JSON.str "mty"), ("lat", JSON.str "25.68"),
            ("long", JSON.str "-100.31")]) "city_name") :=
  C10_theorem _ _ (by simp)

/-! ## Forecast Fetcher — `WeatherService.get_city_weather`

Again the HTTP layer stays outside the embedded fragment: `data` is the
parsed response of the weather API.  `datetime.datetime.fromtimestamp`
converts a Unix timestamp to a date in the server's local timezone; the
local timezone is modelled as a fixed UTC offset `tzOffset` in seconds. -/

/-- The JSON array under a value, `[]` when it is not an array (the code
only iterates the upstream `daily` array). -/
def JSON.asArr : JSON → List JSON
  | .arr elems => elems
  | _ => []

/-- The integer under a JSON number, `0` otherwise (the upstream `dt`
fields are Unix timestamps, i.e. numbers). -/
def JSON.asInt : JSON → Int
  | .num n => n
  | _ => 0

/-- Proleptic-Gregorian `(year, month, day)` from a count of days since the
Unix epoch 1970-01-01 (negative counts allowed). -/
def civilFromDays (z0 : Int) : Int × Int × Int :=
  let z := z0 + 719468
  let era : Int := Int.fdiv z 146097
  let doe : Int := z - era * 146097
  let yoe : Int :=
    Int.fdiv (doe - Int.fdiv doe 1460 + Int.fdiv doe 36524 - Int.fdiv doe 146096) 365
  let y : Int := yoe + era * 400
  let doy : Int := doe - (365 * yoe + Int.fdiv yoe 4 - Int.fdiv yoe 100)
  let mp : Int := Int.fdiv (5 * doy + 2) 153
  let d : Int := doy - Int.fdiv (153 * mp + 2) 5 + 1
  let m : Int := mp + (if mp < 10 then 3 else -9)
  (if m ≤ 2 then y + 1 else y, m, d)

/-- Zero-pad to two digits (strftime `%m`, `%d`). -/
def pad2 (n : Int) : String :=
  if n < 10 then "0" ++ toString n else toString n

/-- Zero-pad to four digits (strftime `%Y`). -/
def pad4 (n : Int) : String :=
  if n < 10 then "000" ++ toString n
  else if n < 100 then "00" ++ toString n
  else if n < 1000 then "0" ++ toString n
  else toString n

/-- `datetime.datetime.fromtimestamp(ts).strftime('%Y-%m-%d')` with the
server's local timezone modelled by the fixed UTC offset `tzOffset`
(seconds east of UTC). -/
def localDateString (tzOffset ts : Int) : String :=
  let date := civilFromDays (Int.fdiv (ts + tzOffset) 86400)
  pad4 date.1 ++ "-" ++ pad2 date.2.1 ++ "-" ++ pad2 date.2.2

/-- The dict `d_aux` built for one entry of the upstream `daily` array:
local calendar date of `dt`, and the `min`/`max` of the `temp` object. -/
def mkDailyRecord (tzOffset : Int) (day : JSON) : JSON :=
  .obj [("datetime", .str (localDateString tzOffset (pythonGet day "dt").asInt)),
        ("temp_min", pythonGet (pythonGet day "temp") "min"),
        ("temp_max", pythonGet (pythonGet day "temp") "max")]

/-- `WeatherService.get_city_weather`, applied to the parsed upstream
response `data`: when `data` and `data.get('daily')` are truthy, one
record per `daily` entry via `mkDailyRecord`, else the empty list. -/
def get_city_weather (tzOffset : Int) (data : JSON) : List JSON :=
  if truthy data && truthy (pythonGet data "daily") then
    ((pythonGet data "daily").asArr).map (mkDailyRecord tzOffset)
  else []

theorem pythonGet_mkDailyRecord (tzOffset : Int) (day : JSON) :
    pythonGet (mkDailyRecord tzOffset day) "datetime" =
      JSON.str (localDateString tzOffset (pythonGet day "dt").asInt) ∧
    pythonGet (mkDailyRecord tzOffset day) "temp_min" =
      pythonGet (pythonGet day "temp") "min" ∧
    pythonGet (mkDailyRecord tzOffset day) "temp_max" =
      pythonGet (pythonGet day "temp") "max" := by
  refine ⟨rfl, ?_, ?_⟩ <;> simp [mkDailyRecord, pythonGet, List.lookup]

/-- C9: for every successful upstream weather response carrying a `daily`
array, the Fetcher returns one record per daily entry, in upstream order,
each with `datetime` the entry's Unix timestamp converted to a local
`YYYY-MM-DD` string and `temp_min`/`temp_max` taken from the entry's
`temp` object; when the payload lacks a `daily` section it returns `[]`. -/
theorem C9_theorem (tzOffset : Int) (data : JSON) :
    (pythonGet data "daily" = JSON.null → get_city_weather tzOffset data = []) ∧
    (∀ ds, pythonGet data "daily" = JSON.arr ds → truthy data = true →
      (get_city_weather tzOffset data).length = ds.length ∧
      (∀ i, i < ds.length → ∃ rec day,
        (get_city_weather tzOffset data)[i]? = some rec ∧ ds[i]? = some day ∧
        pythonGet rec "datetime" =
          JSON.str (localDateString tzOffset (pythonGet day "dt").asInt) ∧
        pythonGet rec "temp_min" = pythonGet (pythonGet day "temp") "min" ∧
        pythonGet rec "temp_max" = pythonGet (pythonGet day "temp") "max")) := by
  constructor
  · intro hnull
    simp [get_city_weather, hnull, truthy]
  · intro ds hdaily htruthy
    rcases ds with _ | ⟨day0, ds'⟩
    · constructor
      · simp [get_city_weather, hdaily, truthy, htruthy]
      · intro i hi
        exact absurd hi (by simp)
    · have hgcw : get_city_weather tzOffset data =
          (day0 :: ds').map (mkDailyRecord tzOffset) := by
        unfold get_city_weather
        rw [hdaily, htruthy]
        simp [truthy, JSON.asArr]
      constructor
      · rw [hgcw]; exact List.length_map _ _
      · intro i hi
        refine ⟨mkDailyRecord tzOffset ((day0 :: ds').get ⟨i, hi⟩),
          (day0 :: ds').get ⟨i, hi⟩, ?_, ?_, (pythonGet_mkDailyRecord _ _).1,
          (pythonGet_mkDailyRecord _ _).2.1, (pythonGet_mkDailyRecord _ _).2.2⟩
        · rw [hgcw]
          rw [List.getElem?_map]
          simp [List.getElem?_eq_getElem hi]
        · simp [List.getElem?_eq_getElem hi]

/-- C9 (witness): instantiation of `C9_theorem` on a concrete payload with
one daily entry, `dt = 1700000000`, in timezone UTC-6: the record's date
is 2023-11-14 local time. -/
theorem C9_witness :
    pythonGet (JSON.obj [("daily", JSON.arr [JSON.obj [("dt", JSON.num 1700000000),
        ("temp", JSON.obj [("min", JSON.num 10), ("max", JSON.num 21)])]])]) "daily" =
      JSON.arr [JSON.obj [("dt", JSON.num 1700000000),
        ("temp", JSON.obj [("min", JSON.num 10), ("max", JSON.num 21)])]] ∧
    truthy (JSON.obj [("daily", JSON.arr [JSON.obj [("dt", JSON.num 1700000000),
        ("temp", JSON.obj [("min", JSON.num 10), ("max", JSON.num 21)])]])]) = true ∧
    ((get_city_weather (-21600) (JSON.obj [("daily", JSON.arr [JSON.obj
        [("dt", JSON.num 1700000000), ("temp", JSON.obj [("min", JSON.num 10),
        ("max", JSON.num 21)])]])])).length = 1 ∧
     (∀ i, i < ([JSON.obj [("dt", JSON.num 1700000000), ("temp", JSON.obj
        [("min", JSON.num 10), ("max", JSON.num 21)])]] : List JSON).length →
       ∃ rec day,
        (get_city_weather (-21600) (JSON.obj [("daily", JSON.arr [JSON.obj
          [("dt", JSON.num 1700000000), ("temp", JSON.obj [("min", JSON.num 10),
          ("max", JSON.num 21)])]])]))[i]? = some rec ∧
        ([JSON.obj [("dt", JSON.num 1700000000), ("temp", JSON.obj
          [("min", JSON.num 10), ("max", JSON.num 21)])]] : List JSON)[i]? = some day ∧
        pythonGet rec "datetime" =
          JSON.str (localDateString (-21600) (pythonGet day "dt").asInt) ∧
        pythonGet rec "temp_min" = pythonGet (pythonGet day "temp") "min" ∧
        pythonGet rec "temp_max" = pythonGet (pythonGet day "temp") "max")) :=
  ⟨rfl, rfl,
    (C9_theorem (-21600) (JSON.obj [("daily", JSON.arr [JSON.obj
        [("dt", JSON.num 1700000000), ("temp", JSON.obj [("min", JSON.num 10),
        ("max", JSON.num 21)])]])])).2
      [JSON.obj [("dt", JSON.num 1700000000),
        ("temp", JSON.obj [("min", JSON.num 10), ("max", JSON.num 21)])]] rfl rfl⟩

/-! ## Aggregator — `WeatherService.get_city_and_weather_info`

The Resolver's parsed upstream response is passed through as `placeData`.
The Fetcher, as submitted to the thread pool with
`executor.submit(get_city_weather, city_res.get('lat'), city_res.get('long'))`,
is an oracle `fetch` that either raises (`Except.error`, from the HTTP
layer) or returns the daily-forecast list (`get_city_weather` always
returns a Python list on success).  `as_completed` yields every submitted
future exactly once in a non-deterministic completion order, modelled by
the index list `order` (a permutation of the future indices in the
theorems).  The `Nat` component counts Fetcher invocations: all futures
are submitted before any result is collected. -/

/-- Assignment `d[key] = v` on an association list: replace the value under
`key`, or append the binding when the key is absent. -/
def setKV : List (String × JSON) → String → JSON → List (String × JSON)
  | [], key, v => [(key, v)]
  | (k', v') :: rest, key, v =>
      if k' = key then (key, v) :: rest else (k', v') :: setKV rest key v

/-- Python `d[key] = v` on a dict; identity on non-dicts (the aggregator
only assigns into the candidate dicts built by the Resolver). -/
def setField (j : JSON) (key : String) (v : JSON) : JSON :=
  match j with
  | .obj fields => .obj (setKV fields key v)
  | _ => j

/-- `city_res['weather'] = city_weather` for one completed fetch. -/
def enrich (cityRes : JSON) (w : List JSON) : JSON :=
  setField cityRes "weather" (.arr w)

/-- The loop `for future in as_completed(future_to_city)`: the futures are
processed in completion order, paired with their originating candidate;
`future.result()` re-raises the first failing fetch's exception, aborting
the whole loop, otherwise the enriched candidate is appended to `results`. -/
def collectFutures : List (JSON × Except String (List JSON)) → Except String (List JSON)
  | [] => .ok []
  | (_, .error e) :: _ => .error e
  | (cityRes, .ok w) :: rest =>
      match collectFutures rest with
      | .ok acc => .ok (enrich cityRes w :: acc)
      | .error e => .error e

/-- `WeatherService.get_city_and_weather_info`: resolve, return `([], no
fetches)` when the candidate collection is falsy, otherwise submit one
fetch per candidate and collect the futures in completion `order`. -/
def get_city_and_weather_info (placeData : List JSON)
    (fetch : JSON → JSON → Except String (List JSON))
    (order : List Nat) : Except String (List JSON) × Nat :=
  match get_city_coordinates placeData with
  | .arr (c :: cs) =>
      let futures := (c :: cs).map
        (fun cityRes => (cityRes, fetch (pythonGet cityRes "lat") (pythonGet cityRes "long")))
      (collectFutures (order.filterMap (fun i => futures[i]?)), (c :: cs).length)
  | _ => (.ok [], 0)

theorem lookup_setKV (fields : List (String × JSON)) (key : String) (v : JSON) :
    (setKV fields key v).lookup key = some v := by
  induction fields with
  | nil => simp [setKV, List.lookup]
  | cons kv rest ih =>
    rcases kv with ⟨k', v'⟩
    by_cases h : k' = key
    · simp [setKV, h, List.lookup]
    · have h' : (key == k') = false := by
        simp [Ne.symm h]
      simp [setKV, h, List.lookup, h', ih]

theorem pythonGet_enrich_weather (fields : List (String × JSON)) (w : List JSON) :
    pythonGet (enrich (JSON.obj fields) w) "weather" = JSON.arr w := by
  simp [enrich, setField, pythonGet, lookup_setKV]

theorem collectFutures_ok (l : List (JSON × Except String (List JSON)))
    (h : ∀ p ∈ l, ∃ w, p.2 = Except.ok w) :
    ∃ out, collectFutures l = .ok out ∧ out.length = l.length ∧
      ∀ x ∈ out, ∃ p ∈ l, ∃ w, p.2 = Except.ok w ∧ x = enrich p.1 w := by
  induction l with
  | nil => exact ⟨[], rfl, rfl, by simp⟩
  | cons hd tl ih =>
    obtain ⟨out, hout, hlen, hmem⟩ := ih (fun p hp => h p (by simp [hp]))
    rcases hd with ⟨cr, res⟩
    obtain ⟨w, hw⟩ := h (cr, res) (by simp)
    simp only at hw
    subst hw
    refine ⟨enrich cr w :: out, ?_, by simp [hlen], ?_⟩
    · simp [collectFutures, hout]
    · intro x hx
      rcases List.mem_cons.mp hx with hx | hx
      · exact ⟨(cr, .ok w), by simp, w, rfl, hx⟩
      · obtain ⟨p, hp, w', hw', hx'⟩ := hmem x hx
        exact ⟨p, by simp [hp], w', hw', hx'⟩

theorem collectFutures_error (l : List (JSON × Except String (List JSON)))
    (p : JSON × Except String (List JSON)) (e : String)
    (hp : p ∈ l) (he : p.2 = .error e) :
    ∃ e', collectFutures l = .error e' := by
  induction l with
  | nil => cases hp
  | cons hd tl ih =>
    rcases hd with ⟨cr, res⟩
    cases res with
    | error e0 => exact ⟨e0, rfl⟩
    | ok w =>
      rcases List.mem_cons.mp hp with heq | hmem
      · rw [heq] at he
        exact absurd he (by simp)
      · obtain ⟨e', he'⟩ := ih hmem
        exact ⟨e', by simp [collectFutures, he']⟩

theorem length_filterMap_getElem {α : Type} (l : List α) (order : List Nat)
    (h : ∀ i ∈ order, i < l.length) :
    (order.filterMap (fun i => l[i]?)).length = order.length := by
  induction order with
  | nil => rfl
  | cons i rest ih =>
    have hi : i < l.length := h i (by simp)
    simp [List.filterMap_cons, List.getElem?_eq_getElem hi,
      ih (fun j hj => h j (by simp [hj]))]

theorem mem_of_mem_filterMap_getElem {α : Type} {l : List α} {order : List Nat}
    {x : α} (h : x ∈ order.filterMap (fun i => l[i]?)) : x ∈ l := by
  rcases List.mem_filterMap.mp h with ⟨i, _, hx⟩
  rcases List.getElem?_eq_some.mp hx with ⟨hi, hval⟩
  exact hval ▸ List.getElem_mem hi

theorem cands_are_objects {placeData : List JSON} {cands : List JSON}
    (hcands : get_city_coordinates placeData = JSON.arr cands) :
    ∀ y ∈ cands, ∃ fields, y = JSON.obj fields := by
  unfold get_city_coordinates at hcands
  by_cases hemp : placeData.isEmpty
  · rw [if_pos hemp] at hcands
    cases hcands
  · rw [if_neg hemp] at hcands
    injection hcands with hcands
    intro y hy
    rw [← hcands] at hy
    rcases List.mem_map.mp hy with ⟨res, _, hproj⟩
    exact ⟨_, hproj.symm⟩

/-! ## Claims C3, C4, C5 — the Aggregator -/

/-- C4: when the Resolver yields no candidates (empty upstream response, or
every result filtered out), the Aggregator returns an empty list
immediately and invokes the Fetcher zero times. -/
theorem C4_theorem (placeData : List JSON)
    (fetch : JSON → JSON → Except String (List JSON)) (order : List Nat)
    (h : placeData.filter keepCandidate = []) :
    get_city_and_weather_info placeData fetch order = (.ok [], 0) := by
  unfold get_city_and_weather_info get_city_coordinates
  by_cases hemp : placeData.isEmpty
  · simp [hemp]
  · simp [hemp, h]

/-- C4 (witness): instantiation of `C4_theorem` on a one-result response
whose single result lacks `id`, `lat` and `long`. -/
theorem C4_witness :
    get_city_and_weather_info [JSON.obj [("name", JSON.str "x")]]
      (fun _ _ => Except.ok []) [0] = (Except.ok [], 0) :=
  C4_theorem [JSON.obj [("name", JSON.str "x")]] (fun _ _ => Except.ok []) [0] rfl

/-- C3: when the Resolver yields at least one candidate and every fetch
succeeds, the Aggregator succeeds with exactly one output element per
candidate (the Fetcher being invoked once per candidate), and every output
item's `weather` field is a list. -/
theorem C3_theorem (placeData : List JSON)
    (fetch : JSON → JSON → Except String (List JSON)) (order : List Nat)
    (cands : List JSON)
    (hcands : get_city_coordinates placeData = JSON.arr cands)
    (hne : cands ≠ [])
    (hfetch : ∀ c ∈ cands, ∃ w, fetch (pythonGet c "lat") (pythonGet c "long") = Except.ok w)
    (hperm : order.Perm (List.range cands.length)) :
    ∃ out, (get_city_and_weather_info placeData fetch order).1 = .ok out ∧
      out.length = cands.length ∧
      (get_city_and_weather_info placeData fetch order).2 = cands.length ∧
      ∀ x ∈ out, ∃ ws, pythonGet x "weather" = JSON.arr ws := by
  have hobj := cands_are_objects hcands
  rcases cands with _ | ⟨c, cs⟩
  · exact absurd rfl hne
  unfold get_city_and_weather_info
  rw [hcands]
  set futures := (c :: cs).map
    (fun cityRes => (cityRes, fetch (pythonGet cityRes "lat") (pythonGet cityRes "long")))
    with hfut
  have hflen : futures.length = (c :: cs).length := List.length_map _ _
  have hord : ∀ i ∈ order, i < futures.length := by
    intro i hio
    rw [hflen]
    exact List.mem_range.mp (hperm.mem_iff.mp hio)
  have hall : ∀ p ∈ order.filterMap (fun i => futures[i]?), ∃ w, p.2 = Except.ok w := by
    intro p hp
    have hpf := mem_of_mem_filterMap_getElem hp
    rcases List.mem_map.mp hpf with ⟨cityRes, hcr, hpe⟩
    obtain ⟨w, hw⟩ := hfetch cityRes hcr
    exact ⟨w, by rw [← hpe]; exact hw⟩
  obtain ⟨out, hout, hlen, hmem⟩ := collectFutures_ok _ hall
  refine ⟨out, hout, ?_, rfl, ?_⟩
  · rw [hlen, length_filterMap_getElem _ _ hord, hperm.length_eq, List.length_range]
  · intro x hx
    obtain ⟨p, hp, w, _, hxe⟩ := hmem x hx
    have hpf := mem_of_mem_filterMap_getElem hp
    rcases List.mem_map.mp hpf with ⟨cityRes, hcr, hpe⟩
    obtain ⟨fields, hfields⟩ := hobj cityRes hcr
    refine ⟨w, ?_⟩
    rw [hxe, ← hpe]
    simp only
    rw [hfields]
    exact pythonGet_enrich_weather fields w

/-- C3 (witness): instantiation of `C3_theorem` on a one-candidate response
with an always-succeeding fetch. -/
theorem C3_witness :
    ∃ out, (get_city_and_weather_info
        [JSON.obj [("id", JSON.str "a"), ("lat", JSON.str "1"), ("long", JSON.str "2")]]
        (fun _ _ => Except.ok []) [0]).1 = .ok out ∧
      out.length = ([projectCandidate (JSON.obj [("id", JSON.str "a"),
        ("lat", JSON.str "1"), ("long", JSON.str "2")])] : List JSON).length ∧
      (get_city_and_weather_info
        [JSON.obj [("id", JSON.str "a"), ("lat", JSON.str "1"), ("long", JSON.str "2")]]
        (fun _ _ => Except.ok []) [0]).2 =
        ([projectCandidate (JSON.obj [("id", JSON.str "a"),
          ("lat", JSON.str "1"), ("long", JSON.str "2")])] : List JSON).length ∧
      ∀ x ∈ out, ∃ ws, pythonGet x "weather" = JSON.arr ws :=
  C3_theorem _ (fun _ _ => Except.ok []) [0] _ rfl
    (by simp) (fun c _ => ⟨[], rfl⟩) (by
      have h : List.range 1 = [0] := by decide
      simp only [List.length_singleton, h]
      exact List.Perm.refl _)

/-- C5: if any single fetch raises during aggregation, the Aggregator
raises to its caller; it never returns a partial result list. -/
theorem C5_theorem (placeData : List JSON)
    (fetch : JSON → JSON → Except String (List JSON)) (order : List Nat)
    (cands : List JSON)
    (hcands : get_city_coordinates placeData = JSON.arr cands)
    (c : JSON) (hc : c ∈ cands) (e : String)
    (herr : fetch (pythonGet c "lat") (pythonGet c "long") = Except.error e)
    (hperm : order.Perm (List.range cands.length)) :
    ∃ e', (get_city_and_weather_info placeData fetch order).1 = .error e' := by
  rcases cands with _ | ⟨c0, cs⟩
  · cases hc
  unfold get_city_and_weather_info
  rw [hcands]
  set futures := (c0 :: cs).map
    (fun cityRes => (cityRes, fetch (pythonGet cityRes "lat") (pythonGet cityRes "long")))
    with hfut
  obtain ⟨⟨i, hilt⟩, hgetc⟩ := List.mem_iff_get.mp hc
  have hgetc2 : (c0 :: cs)[i] = c := by
    simpa using hgetc
  have hio : i ∈ order := hperm.mem_iff.mpr (List.mem_range.mpr hilt)
  have hfo : futures[i]? = some (c, fetch (pythonGet c "lat") (pythonGet c "long")) := by
    rw [hfut, List.getElem?_map, List.getElem?_eq_getElem hilt, hgetc2]
    rfl
  obtain ⟨e', he'⟩ := collectFutures_error (order.filterMap (fun j => futures[j]?))
    (c, fetch (pythonGet c "lat") (pythonGet c "long")) e
    (List.mem_filterMap.mpr ⟨i, hio, hfo⟩) herr
  exact ⟨e', he'⟩

/-- C5 (witness): instantiation of `C5_theorem` on a one-candidate response
whose fetch raises. -/
theorem C5_witness :
    ∃ e', (get_city_and_weather_info
        [JSON.obj [("id", JSON.str "a"), ("lat", JSON.str "1"), ("long", JSON.str "2")]]
        (fun _ _ => Except.error "connection reset") [0]).1 = .error e' :=
  C5_theorem _ (fun _ _ => Except.error "connection reset") [0]
    [projectCandidate (JSON.obj [("id", JSON.str "a"), ("lat", JSON.str "1"),
      ("long", JSON.str "2")])] rfl
    (projectCandidate (JSON.obj [("id", JSON.str "a"), ("lat", JSON.str "1"),
      ("long", JSON.str "2")])) (by simp) "connection reset" rfl
    (by
      have h : List.range 1 = [0] := by decide
      simp only [List.length_singleton, h]
      exact List.Perm.refl _)

/-! ## Request Handler — `WeatherForecastView.get` (src/weather/views.py)

`request.GET.get('city')` yields an `Option String` (absent parameter →
`None`).  The Aggregator call either returns its list or raises; the three
`except` clauses of the view distinguish `requests.HTTPError`,
`requests.RequestException` and any other `Exception`, modelled by the
constructors of `AggOutcome`.  A `JsonResponse` is rendered as a status
code plus JSON body; the `logger.error` lines and the number of Aggregator
invocations are recorded alongside to make the logging and no-call
behaviour provable. -/

/-- Outcome of the `WeatherService.get_city_and_weather_info` call as
observed by the view: the returned list, or the exception raised, carrying
its message. -/
inductive AggOutcome where
  | ok (result : List JSON)
  | httpError (msg : String)
  | requestError (msg : String)
  | otherError (msg : String)

/-- A rendered `JsonResponse` plus the view's observable side effects. -/
structure ViewResult where
  status : Nat
  body : JSON
  logs : List String
  aggCalls : Nat

/-- `WeatherForecastView.error_response`: an error `JsonResponse`. -/
def error_response (message : String) (status : Nat) : Nat × JSON :=
  (status, JSON.obj [("error", JSON.str message)])

/-- `WeatherForecastView.get`: validate the `city` query parameter, invoke
the Aggregator, and map its outcome to an HTTP response. -/
def WeatherForecastView.get (city : Option String)
    (agg : String → AggOutcome) : ViewResult :=
  match city with
  | none =>
      { status := (error_response "City name is required" 400).1,
        body := (error_response "City name is required" 400).2,
        logs := [], aggCalls := 0 }
  | some city_name =>
      if city_name = "" then
        { status := (error_response "City name is required" 400).1,
          body := (error_response "City name is required" 400).2,
          logs := [], aggCalls := 0 }
      else
        match agg city_name with
        | .ok result =>
            if result.isEmpty then
              { status := (error_response "City not found" 404).1,
                body := (error_response "City not found" 404).2,
                logs := [], aggCalls := 1 }
            else
              { status := 200, body := JSON.arr result, logs := [], aggCalls := 1 }
        | .httpError msg =>
            { status := (error_response "An error occurred, please try again later." 500).1,
              body := (error_response "An error occurred, please try again later." 500).2,
              logs := [("HTTP error occurred for city \"" ++ city_name ++ "\": ") ++ msg],
              aggCalls := 1 }
        | .requestError msg =>
            { status := (error_response "An error occurred, please try again later." 500).1,
              body := (error_response "An error occurred, please try again later." 500).2,
              logs := [("Request error occurred for city \"" ++ city_name ++ "\": ") ++ msg],
              aggCalls := 1 }
        | .otherError msg =>
            { status := (error_response "An error occurred, please try again later." 500).1,
              body := (error_response "An error occurred, please try again later." 500).2,
              logs := [("An unexpected error occurred for city \"" ++ city_name ++ "\": ") ++ msg],
              aggCalls := 1 }

/-! ## Claims C6, C7, C8 — the Request Handler -/

/-- C6: a missing or empty `city` query parameter yields HTTP 400 with
body `{"error": "City name is required"}` and zero Aggregator
invocations. -/
theorem C6_theorem (city : Option String) (agg : String → AggOutcome)
    (h : city = none ∨ city = some "") :
    WeatherForecastView.get city agg =
      { status := 400, body := JSON.obj [("error", JSON.str "City name is required")],
        logs := [], aggCalls := 0 } := by
  rcases h with h | h <;> subst h <;> rfl

/-- C6 (witness): instantiation of `C6_theorem` on a request without a
`city` parameter. -/
theorem C6_witness :
    WeatherForecastView.get none (fun _ => AggOutcome.ok []) =
      { status := 400, body := JSON.obj [("error", JSON.str "City name is required")],
        logs := [], aggCalls := 0 } :=
  C6_theorem none (fun _ => AggOutcome.ok []) (Or.inl rfl)

/-- C7: when validation passes and the Aggregator returns an empty list,
the view responds HTTP 404 with body `{"error": "City not found"}`. -/
theorem C7_theorem (city_name : String) (agg : String → AggOutcome)
    (hne : city_name ≠ "") (hempty : agg city_name = AggOutcome.ok []) :
    WeatherForecastView.get (some city_name) agg =
      { status := 404, body := JSON.obj [("error", JSON.str "City not found")],
        logs := [], aggCalls := 1 } := by
  simp only [WeatherForecastView.get]
  rw [if_neg hne, hempty]
  rfl

/-- C7 (witness): instantiation of `C7_theorem` on `city="Nonexistentville123"`
with an Aggregator finding nothing. -/
theorem C7_witness :
    WeatherForecastView.get (some "Nonexistentville123") (fun _ => AggOutcome.ok []) =
      { status := 404, body := JSON.obj [("error", JSON.str "City not found")],
        logs := [], aggCalls := 1 } :=
  C7_theorem "Nonexistentville123" (fun _ => AggOutcome.ok [])
    (by simp) rfl

/-- C8: whenever the Aggregator raises — an HTTP transport failure, another
request failure, or any unexpected exception — the view responds HTTP 500
with exactly the generic body
`{"error": "An error occurred, please try again later."}` (independent of
the cause), and the underlying cause is logged server-side. -/
theorem C8_theorem (city_name : String) (agg : String → AggOutcome) (e : String)
    (hne : city_name ≠ "")
    (herr : agg city_name = AggOutcome.httpError e ∨
      agg city_name = AggOutcome.requestError e ∨
      agg city_name = AggOutcome.otherError e) :
    (WeatherForecastView.get (some city_name) agg).status = 500 ∧
    (WeatherForecastView.get (some city_name) agg).body =
      JSON.obj [("error", JSON.str "An error occurred, please try again later.")] ∧
    ∃ pre, (WeatherForecastView.get (some city_name) agg).logs = [pre ++ e] := by
  rcases herr with h | h | h <;>
  · simp only [WeatherForecastView.get]
    rw [if_neg hne, h]
    exact ⟨rfl, rfl, _, rfl⟩

/-- C8 (witness): instantiation of `C8_theorem` on an Aggregator raising an
HTTP transport error. -/
theorem C8_witness :
    (WeatherForecastView.get (some "Guadalajara")
      (fun _ => AggOutcome.httpError "503 Server Error")).status = 500 ∧
    (WeatherForecastView.get (some "Guadalajara")
      (fun _ => AggOutcome.httpError "503 Server Error")).body =
      JSON.obj [("error", JSON.str "An error occurred, please try again later.")] ∧
    ∃ pre, (WeatherForecastView.get (some "Guadalajara")
      (fun _ => AggOutcome.httpError "503 Server Error")).logs =
        [pre ++ "503 Server Error"] :=
  C8_theorem "Guadalajara" (fun _ => AggOutcome.httpError "503 Server Error")
    "503 Server Error" (by simp) (Or.inl rfl)
